import Mathlib

/-!
Verification of the fleet-orchestrator core of the agoda-scraper repository.

The definitions below are a shallow embedding of the Python sources:
  * src/scraper/models.py            (`HotelInfo`, `RoomData`, `to_csv_row`)
  * src/scraper/multi_browser_scraper.py
      (`scrape_with_retry`, `browser_worker_task`, `test_proxy`,
       `validate_proxies`, `multi_browser_scrape`'s fingerprint/proxy
       assignment and CSV sink)
  * src/scraper/room_details.py      (`scrape_hotel_rooms`)

Python exceptions are modelled with `Except String`; machine floats that are
only carried, never computed with, are modelled as `Rat`; keyword-argument
dataclass construction is modelled explicitly because one call site passes a
keyword that the dataclass does not declare.
-/

set_option autoImplicit false

namespace AgodaScraper

/-- Embedding of the `HotelInfo` dataclass (src/scraper/models.py, lines 9-19).
Only the fields used by the claims are relevant; all are carried verbatim. -/
structure HotelInfo where
  name : String
  url : String
  rating : Option Rat := none
  review_count : Option Int := none
  base_price : Option Rat := none
  currency : String := "INR"
  star_rating : Option Int := none
  location : Option String := none
deriving Repr, DecidableEq

/-- Embedding of the `RoomData` dataclass (src/scraper/models.py, lines 35-53).
Note: the dataclass declares NO `availability_count` field. -/
structure RoomData where
  hotel_name : String
  date : String
  room_type : String
  price : Option Rat
  currency : String
  amenities : List String
  is_available : Bool
  cancellation_policy : Option String := none
  meal_plan : Option String := none
  max_occupancy : Option Int := none
  bed_type : Option String := none
  hotel_location : Option String := none
  hotel_rating : Option Rat := none
  hotel_star_rating : Option Int := none
  hotel_review_count : Option Int := none
deriving Repr, DecidableEq

/-- The field names accepted by the generated `RoomData.__init__`
(src/scraper/models.py, lines 35-53). -/
def roomDataFields : List String :=
  ["hotel_name", "date", "room_type", "price", "currency", "amenities",
   "is_available", "cancellation_policy", "meal_plan", "max_occupancy",
   "bed_type", "hotel_location", "hotel_rating", "hotel_star_rating",
   "hotel_review_count"]

/-- Message of the `TypeError` Python raises when a dataclass constructor
receives an unknown keyword argument. -/
def unexpectedKwargMsg : String :=
  "TypeError: unexpected keyword argument availability_count"

/-- Models calling the generated `RoomData(...)` constructor with the given
keyword names. Python raises `TypeError` when any keyword is not a declared
field; otherwise the intended record is produced. -/
def roomDataCall (kwargs : List String) (intended : RoomData) :
    Except String RoomData :=
  if kwargs.all (fun k => roomDataFields.contains k) then .ok intended
  else .error unexpectedKwargMsg

/-- The keyword names used at the error-placeholder construction inside
`scrape_with_retry` (src/scraper/multi_browser_scraper.py, lines 482-495).
It includes `availability_count`, which `RoomData` does not declare. -/
def retryPlaceholderKwargs : List String :=
  ["hotel_name", "date", "room_type", "price", "currency", "amenities",
   "is_available", "availability_count", "hotel_location", "hotel_rating",
   "hotel_star_rating", "hotel_review_count"]

/-- The record `scrape_with_retry` intends to build on exhaustion
(src/scraper/multi_browser_scraper.py, lines 482-495). `hotel.currency or
"INR"` falls back to `"INR"` exactly when the string is empty (falsy). -/
def retryErrorRoom (hotel : HotelInfo) (date : String) : RoomData :=
  { hotel_name := hotel.name
    date := date
    room_type := "Error"
    price := none
    currency := if hotel.currency = "" then "INR" else hotel.currency
    amenities := []
    is_available := false
    hotel_location := hotel.location
    hotel_rating := hotel.rating
    hotel_star_rating := hotel.star_rating
    hotel_review_count := hotel.review_count }

/-- Substring test on strings, used to model Python's `x in error_str`. -/
def strContains (s pat : String) : Bool :=
  (List.range (s.data.length + 1)).any (fun i => pat.data.isPrefixOf (s.data.drop i))

/-- The transient-network error markers of `scrape_with_retry`
(src/scraper/multi_browser_scraper.py, lines 464-471). -/
def retryablePatterns : List String :=
  ["err_internet_disconnected", "err_connection_reset", "err_connection_refused",
   "err_network_changed", "timeout", "net::err"]

/-- ASCII lower-casing of one character, as `str.lower()` acts on the ASCII
range the error texts live in. -/
def lowerChar (c : Char) : Char :=
  if 65 ≤ c.toNat && c.toNat ≤ 90 then Char.ofNat (c.toNat + 32) else c

/-- Models Python's `str(e).lower()` on the error text. -/
def strToLower (s : String) : String := ⟨s.data.map lowerChar⟩

/-- Error classification of `scrape_with_retry`
(src/scraper/multi_browser_scraper.py, lines 461-471): the lower-cased error
text contains one of the transient-network markers. -/
def isRetryable (msg : String) : Bool :=
  retryablePatterns.any (fun p => strContains (strToLower msg) p)

/-- Result of one run of `scrape_with_retry`: the Python-level outcome
(returned rooms or an escaping exception), the number of times the wrapped
operation was invoked, and the waits slept between consecutive attempts. -/
structure RetryRun where
  result : Except String (List RoomData)
  calls : Nat
  waits : List Rat
deriving Repr

/-- The fall-through of `scrape_with_retry` once the loop no longer retries
(src/scraper/multi_browser_scraper.py, lines 480-495): construct the error
placeholder through the dataclass call with the call site's keyword list and
return it as a one-element list. -/
def retryFallThrough (hotel : HotelInfo) (date : String) : RetryRun :=
  { result := (roomDataCall retryPlaceholderKwargs
      (retryErrorRoom hotel date)).map (fun r => [r])
    calls := 0
    waits := [] }

/-- One iteration of the attempt loop of `scrape_with_retry`
(src/scraper/multi_browser_scraper.py, lines 453-478) at attempt index `a`,
`next` being the run over the remaining attempts. A success returns at once;
a retryable error with attempts remaining sleeps `retry_delay * (attempt+1)`
and continues; anything else breaks to the fall-through placeholder path. -/
def retryStep (op : Nat → Except String (List RoomData))
    (hotel : HotelInfo) (date : String) (maxRetries : Nat) (retryDelay : Rat)
    (a : Nat) (next : RetryRun) : RetryRun :=
  match op a with
  | .ok rooms => { result := .ok rooms, calls := 1, waits := [] }
  | .error e =>
      if isRetryable e && decide (a < maxRetries - 1) then
        { result := next.result
          calls := next.calls + 1
          waits := retryDelay * ((a : Rat) + 1) :: next.waits }
      else
        { result := (roomDataCall retryPlaceholderKwargs
            (retryErrorRoom hotel date)).map (fun r => [r])
          calls := 1
          waits := [] }

/-- Loop of `scrape_with_retry` (src/scraper/multi_browser_scraper.py,
lines 451-495) over the remaining attempt indices of `range max_retries`;
completing the loop without a return or break lands on the fall-through
placeholder path. -/
def scrapeWithRetryGo (op : Nat → Except String (List RoomData))
    (hotel : HotelInfo) (date : String) (maxRetries : Nat) (retryDelay : Rat) :
    List Nat → RetryRun
  | [] => retryFallThrough hotel date
  | a :: rest =>
      retryStep op hotel date maxRetries retryDelay a
        (scrapeWithRetryGo op hotel date maxRetries retryDelay rest)

/-- Embedding of `scrape_with_retry` (src/scraper/multi_browser_scraper.py,
lines 439-495). `op n` is the outcome of `scrape_hotel_rooms` on attempt `n`. -/
def scrapeWithRetry (op : Nat → Except String (List RoomData))
    (hotel : HotelInfo) (date : String) (maxRetries : Nat)
    (retryDelay : Rat) : RetryRun :=
  scrapeWithRetryGo op hotel date maxRetries retryDelay (List.range maxRetries)

/-- The "No Rooms Found" placeholder built by `scrape_hotel_rooms`
(src/scraper/room_details.py, lines 618-630 and 659-671). -/
def noRoomsFoundRoom (hotel : HotelInfo) (date : String) : RoomData :=
  { hotel_name := hotel.name
    date := date
    room_type := "No Rooms Found"
    price := none
    currency := hotel.currency
    amenities := []
    is_available := false
    hotel_location := hotel.location
    hotel_rating := hotel.rating
    hotel_star_rating := hotel.star_rating
    hotel_review_count := hotel.review_count }

/-- The "Error" placeholder built by the `except` handler of
`scrape_hotel_rooms` (src/scraper/room_details.py, lines 676-690). -/
def detailsErrorRoom (hotel : HotelInfo) (date : String) : RoomData :=
  { hotel_name := hotel.name
    date := date
    room_type := "Error"
    price := none
    currency := hotel.currency
    amenities := []
    is_available := false
    hotel_location := hotel.location
    hotel_rating := hotel.rating
    hotel_star_rating := hotel.star_rating
    hotel_review_count := hotel.review_count }

/-- Abstraction of what happened inside the guarded `try` body of
`scrape_hotel_rooms` (src/scraper/room_details.py, lines 570-690): whether
some statement of the body raised, whether the room-grid JSON API response was
captured, the rooms `parse_room_json` produced, whether
`wait_for_room_listings` found the listings, and the rooms
`parse_room_listings` produced from the rendered HTML. -/
structure PageExtraction where
  bodyRaises : Option String
  apiReceived : Bool
  jsonRooms : List RoomData
  htmlLoaded : Bool
  htmlRooms : List RoomData
deriving Repr, DecidableEq

/-- Embedding of the guarded body and handler of `scrape_hotel_rooms`
(src/scraper/room_details.py, lines 570-690). Any exception in the body lands
in the handler, which returns the single "Error" placeholder; the JSON branch
is taken when the API response was captured and parsed non-empty; otherwise
the HTML fallback returns a "No Rooms Found" placeholder when the listings are
missing or parse empty. -/
def scrapeHotelRooms (hotel : HotelInfo) (date : String)
    (ext : PageExtraction) : List RoomData :=
  match ext.bodyRaises with
  | some _ => [detailsErrorRoom hotel date]
  | none =>
      if ext.apiReceived && !ext.jsonRooms.isEmpty then ext.jsonRooms
      else if !ext.htmlLoaded then [noRoomsFoundRoom hotel date]
      else if ext.htmlRooms.isEmpty then [noRoomsFoundRoom hotel date]
      else ext.htmlRooms

/-- Mutable state of one worker's per-hotel date loop
(src/scraper/multi_browser_scraper.py, lines 549-592): records written to the
CSV sink so far, the `hotel_rooms` accumulator, the `consecutive_errors`
counter, the number of browser restarts performed, and `worker.errors`. -/
structure DateLoopState where
  written : List RoomData
  hotelRooms : List RoomData
  consecutiveErrors : Nat
  restarts : Nat
  workerErrors : Nat
deriving Repr, DecidableEq

/-- The initial state of the date loop for one hotel
(src/scraper/multi_browser_scraper.py, lines 549-550). -/
def initDateLoop : DateLoopState :=
  { written := [], hotelRooms := [], consecutiveErrors := 0,
    restarts := 0, workerErrors := 0 }

/-- The success test of the circuit breaker
(src/scraper/multi_browser_scraper.py, line 564): the returned list is
non-empty and its first record is not the "Error" placeholder. -/
def roomsSuccessful (rooms : List RoomData) : Bool :=
  match rooms with
  | [] => false
  | r :: _ => r.room_type != "Error"

/-- One iteration of the per-date loop of `browser_worker_task`
(src/scraper/multi_browser_scraper.py, lines 556-592). The outcome is what
`scrape_with_retry` did for this date: returned rooms, or raised. On a raise
the `except` handler (lines 589-592) bumps `worker.errors` and
`consecutive_errors` and writes nothing. On a return the rooms are appended
to `hotel_rooms`, the circuit-breaker counter is reset or bumped (lines
563-567), non-empty rooms are written to the CSV (lines 570-571), and a
counter at the threshold 5 forces a browser restart and resets it (lines
574-583). -/
def processDate (st : DateLoopState)
    (outcome : Except String (List RoomData)) : DateLoopState :=
  match outcome with
  | .error _ =>
      { st with workerErrors := st.workerErrors + 1,
                consecutiveErrors := st.consecutiveErrors + 1 }
  | .ok rooms =>
      let ce := if roomsSuccessful rooms then 0 else st.consecutiveErrors + 1
      let st :=
        { st with hotelRooms := st.hotelRooms ++ rooms
                  consecutiveErrors := ce
                  written := st.written ++ (if rooms.isEmpty then [] else rooms) }
      if 5 ≤ st.consecutiveErrors then
        { st with consecutiveErrors := 0, restarts := st.restarts + 1 }
      else st

/-- The whole per-hotel date loop (src/scraper/multi_browser_scraper.py,
lines 553-592), one outcome per configured date. -/
def processDates (st : DateLoopState)
    (outcomes : List (Except String (List RoomData))) : DateLoopState :=
  outcomes.foldl processDate st

/-- Observable events of the hotel loop of `browser_worker_task`
(src/scraper/multi_browser_scraper.py, lines 530-621): a work item was
dequeued (`hotel_queue.get`, line 533), its processing body raised and was
caught (lines 615-617), and `hotel_queue.task_done` ran (line 621). -/
inductive WorkerEvent where
  | dequeued (item : Nat)
  | bodyFailed (item : Nat)
  | taskDone (item : Nat)
deriving Repr, DecidableEq

/-- Recognizer for `taskDone` events. -/
def isTaskDoneEvt : WorkerEvent → Bool
  | .taskDone _ => true
  | _ => false

/-- Event trace of one worker over the items it dequeues, in order
(src/scraper/multi_browser_scraper.py, lines 530-621): each dequeued item is
processed inside `try ... except Exception ... finally: task_done()`, so a
`taskDone` event follows every `dequeued` event whether or not the body
failed. `fails i` says whether processing of item `i` raises. -/
def workerTrace (fails : Nat → Bool) (assigned : List Nat) : List WorkerEvent :=
  assigned.flatMap (fun i =>
    WorkerEvent.dequeued i ::
      (if fails i then [WorkerEvent.bodyFailed i] else []) ++
      [WorkerEvent.taskDone i])

/-- The combined event trace of a fleet of workers, `assignment` giving the
items each worker dequeues (the queue hands every enqueued item to exactly
one worker). -/
def fleetTrace (fails : Nat → Bool) (assignment : List (List Nat)) :
    List WorkerEvent :=
  (assignment.map (workerTrace fails)).flatten

/-- State visible to one `browser_worker_task` run
(src/scraper/multi_browser_scraper.py, lines 523-642): a fresh-id counter, the
set of currently open browser-side resources, and the worker's two local
variables `browser` and `page`. -/
structure WorkerSt where
  nextId : Nat
  openSessions : List Nat
  browserVar : Option Nat
  pageVar : Option Nat
deriving Repr, DecidableEq

/-- A Python computation over `WorkerSt` that may raise. -/
def WorkerM (α : Type) : Type := WorkerSt → Except String α × WorkerSt

/-- Models Python `try: body ... finally: fin` where the finalizer is total
(in the source every close in the finalizer is wrapped in its own
`try/except: pass`, lines 628-637). -/
def pyTryFinally (body : WorkerM Unit) (fin : WorkerSt → WorkerSt) :
    WorkerM Unit := fun s =>
  let r := body s
  (r.1, fin r.2)

/-- Models Python `try: body ... except Exception as e: log` — the handler
swallows the exception (src/scraper/multi_browser_scraper.py, lines 623-624). -/
def pyCatchAll (body : WorkerM Unit) : WorkerM Unit := fun s =>
  match body s with
  | (.error _, s1) => (.ok (), s1)
  | (.ok _, s1) => (.ok (), s1)

/-- The `finally` block of `browser_worker_task`
(src/scraper/multi_browser_scraper.py, lines 626-637): close the page
referenced by the local `page`, then the browser referenced by the local
`browser`, each only when the variable is set. -/
def releaseWorkerResources (s : WorkerSt) : WorkerSt :=
  let s1 :=
    match s.pageVar with
    | some p => { s with openSessions := s.openSessions.filter (fun x => x != p) }
    | none => s
  match s1.browserVar with
  | some b => { s1 with openSessions := s1.openSessions.filter (fun x => x != b) }
  | none => s1

/-- The guarded part of `browser_worker_task`
(src/scraper/multi_browser_scraper.py, lines 526-621): initialize
`browser = page = None` (lines 523-524), acquire the session — which either
raises or binds both locals and opens two resources (line 528) — then run the
hotel loop. `loopBody` is the arbitrary remainder of the loop, which may
raise and may itself open or close resources (the mid-loop restart does). -/
def workerBody (acquireOk : Bool) (loopBody : WorkerM Unit) : WorkerM Unit :=
  fun s =>
    let s := { s with browserVar := none, pageVar := none }
    if acquireOk then
      let b := s.nextId
      let p := s.nextId + 1
      loopBody { s with nextId := s.nextId + 2,
                        openSessions := p :: b :: s.openSessions,
                        browserVar := some b, pageVar := some p }
    else (.error "browser launch failed", s)

/-- Embedding of the control skeleton of `browser_worker_task`
(src/scraper/multi_browser_scraper.py, lines 523-642): the guarded body runs
inside `try ... except Exception: log ... finally: release`, so any failure
is swallowed at the worker boundary and the release runs on every exit
path. -/
def browserWorkerTask (acquireOk : Bool) (loopBody : WorkerM Unit) :
    WorkerM Unit :=
  pyTryFinally (pyCatchAll (workerBody acquireOk loopBody))
    releaseWorkerResources

/-- The viewport pool of src/scraper/multi_browser_scraper.py, lines 130-170,
as (width, height) pairs, in source order. -/
def VIEWPORTS : List (Nat × Nat) :=
  [(1920, 1080), (1366, 768), (1536, 864), (1440, 900), (1680, 1050),
   (2560, 1440), (1280, 720), (1600, 900), (1280, 1024), (1024, 768),
   (1920, 1200), (2560, 1600), (3840, 2160), (1400, 1050), (1600, 1200),
   (1280, 800), (1440, 810), (1536, 960), (1792, 1120), (2048, 1152),
   (2560, 1080), (3440, 1440), (3840, 1600),
   (1366, 912), (1463, 914), (1512, 982), (1707, 1067), (1829, 1143),
   (1920, 937), (2304, 1440)]

/-- The locale/timezone pool of src/scraper/multi_browser_scraper.py,
lines 176-201, in source order. -/
def LOCALES : List (String × String) :=
  [("en-US", "America/New_York"), ("en-US", "America/Los_Angeles"),
   ("en-US", "America/Chicago"), ("en-US", "America/Denver"),
   ("en-US", "America/Phoenix"),
   ("en-GB", "Europe/London"), ("en-GB", "Europe/Dublin"),
   ("en-GB", "Europe/Berlin"), ("en-GB", "Europe/Paris"),
   ("en-GB", "Europe/Madrid"),
   ("en-IN", "Asia/Kolkata"), ("en-AU", "Australia/Sydney"),
   ("en-AU", "Australia/Melbourne"), ("en-SG", "Asia/Singapore"),
   ("en-IN", "Asia/Dubai"),
   ("en-CA", "America/Toronto"), ("en-NZ", "Pacific/Auckland")]

/-- The client-identity signals selected for one worker
(src/scraper/multi_browser_scraper.py, lines 737-744). -/
structure Fingerprint where
  user_agent : String
  viewport : Nat × Nat
  locale : String
  timezone : String
deriving Repr, DecidableEq

/-- The fingerprint assignment of `multi_browser_scrape`
(src/scraper/multi_browser_scraper.py, lines 725-744): with
`global_index = ec2_offset + worker_id`, each of the three pools is indexed
at `global_index mod pool_size`. `USER_AGENTS` is shuffled per deployment
(line 722), so the user-agent pool is a parameter here — any permutation of
the source's agent list, or any list at all; the viewport and locale pools
are the fixed module-level constants. -/
def mkFingerprint (uaPool : List String) (globalIndex : Nat) : Fingerprint :=
  { user_agent := uaPool.getD (globalIndex % uaPool.length) ""
    viewport := VIEWPORTS.getD (globalIndex % VIEWPORTS.length) (0, 0)
    locale := (LOCALES.getD (globalIndex % LOCALES.length) ("", "")).1
    timezone := (LOCALES.getD (globalIndex % LOCALES.length) ("", "")).2 }

/-- The fingerprints one deployment assigns to its `numWorkers` workers,
worker `i` getting global index `offset + i`
(src/scraper/multi_browser_scraper.py, lines 725-745). -/
def deploymentFingerprints (uaPool : List String) (offset numWorkers : Nat) :
    List Fingerprint :=
  (List.range numWorkers).map (fun i => mkFingerprint uaPool (offset + i))

/-- The proxy assignment of `multi_browser_scrape`
(src/scraper/multi_browser_scraper.py, lines 731-735): a worker gets a proxy
only when the validated list is non-empty, else `None` (direct connection). -/
def assignProxy (workingProxies : List String) (globalIndex : Nat) :
    Option String :=
  if workingProxies.isEmpty then none
  else some (workingProxies.getD (globalIndex % workingProxies.length) "")

/-- What the probed endpoint does during one `test_proxy` run
(src/scraper/multi_browser_scraper.py, lines 390-417): the throwaway browser
launch fails; `page.goto`/`page.content` raises; the page loads but the body
lacks the `"origin"` marker; or the page loads with the marker. -/
inductive ProbeBehavior where
  | launchFails
  | gotoFails
  | contentNoOrigin
  | contentOrigin
deriving Repr, DecidableEq

/-- A Python computation over the count of open throwaway probe sessions. -/
def ProbeM (α : Type) : Type := Nat → Except String α × Nat

/-- Sequencing of probe steps with Python exception propagation. -/
def probeBind {α β : Type} (m : ProbeM α) (f : α → ProbeM β) : ProbeM β :=
  fun n =>
    match m n with
    | (.ok a, n1) => f a n1
    | (.error e, n1) => (.error e, n1)

/-- Probe step `playwright.chromium.launch(...)` (line 397): on success one
throwaway session is now open; on failure nothing was opened. -/
def probeLaunch (b : ProbeBehavior) : ProbeM Unit := fun n =>
  if b = .launchFails then (.error "launch failed", n) else (.ok (), n + 1)

/-- Probe step `page.goto("https://httpbin.org/ip", ...)` (line 405). -/
def probeGoto (b : ProbeBehavior) : ProbeM Unit := fun n =>
  if b = .gotoFails then (.error "goto: timeout", n) else (.ok (), n)

/-- Probe step `page.content()` (line 406), yielding the rendered body. -/
def probeContent (b : ProbeBehavior) : ProbeM String := fun n =>
  (.ok (if b = .contentOrigin then "origin: 203.0.113.7" else "<html></html>"), n)

/-- Probe step `browser.close()` (line 408). -/
def probeClose : ProbeM Unit := fun n => (.ok (), n - 1)

/-- Embedding of `test_proxy` (src/scraper/multi_browser_scraper.py, lines
390-417): `try: launch; goto; content; close; return "origin" in content`
with `except Exception: return False`. The `close` sits before the content
check and inside the `try`, so a raise from `goto`/`content` skips it. -/
def testProxy (b : ProbeBehavior) : ProbeM Bool :=
  fun n =>
    match
      (probeBind (probeLaunch b) (fun _ =>
        probeBind (probeGoto b) (fun _ =>
          probeBind (probeContent b) (fun content =>
            probeBind probeClose (fun _ =>
              fun m => (.ok (strContains content "origin"), m)))))) n
    with
    | (.ok v, n1) => (.ok v, n1)
    | (.error _, n1) => (.ok false, n1)

/-- Whether `test_proxy` reports the proxy as working (its return value). -/
def proxyWorks (b : ProbeBehavior) : Bool :=
  match (testProxy b 0).1 with
  | .ok v => v
  | .error _ => false

/-- Embedding of the loop of `validate_proxies`
(src/scraper/multi_browser_scraper.py, lines 428-436): probe each candidate
in order and keep the ones `test_proxy` approved. `beh` gives the behavior of
each candidate endpoint. -/
def validateProxiesGo (beh : String → ProbeBehavior) :
    List String → ProbeM (List String)
  | [] => fun n => (.ok [], n)
  | p :: rest =>
      probeBind (testProxy (beh p)) (fun ok =>
        probeBind (validateProxiesGo beh rest) (fun ws =>
          fun n => (.ok (if ok then p :: ws else ws), n)))

/-- The CSV header of the multi-browser sink
(src/scraper/multi_browser_scraper.py, lines 687-691). -/
def csvHeaders : List String :=
  ["hotel_name", "hotel_location", "hotel_rating", "hotel_star_rating",
   "hotel_review_count", "date", "room_type", "price", "currency",
   "amenities", "availability", "availability_count", "cancellation_policy",
   "meal_plan"]

/-- Cell text for an optional numeric rational field: Python renders `""` for
`None` and for falsy `0` (`x if x else ""`); the exact digits rendered for a
non-zero value are immaterial to the claims. -/
def ratCell (x : Option Rat) : String :=
  match x with
  | none => ""
  | some q => if q = 0 then "" else toString q.num ++ "/" ++ toString q.den

/-- Cell text for an optional integer field, with the same falsy-zero rule. -/
def intCell (x : Option Int) : String :=
  match x with
  | none => ""
  | some i => if i = 0 then "" else toString i

/-- Embedding of `RoomData.to_csv_row` (src/scraper/models.py, lines 75-91)
as the association list of keyword/value pairs of the returned dict, in
source order. No `availability_count` key is produced. -/
def toCsvRow (r : RoomData) : List (String × String) :=
  [("hotel_name", r.hotel_name),
   ("hotel_location", r.hotel_location.getD ""),
   ("hotel_rating", ratCell r.hotel_rating),
   ("hotel_star_rating", intCell r.hotel_star_rating),
   ("hotel_review_count", intCell r.hotel_review_count),
   ("date", r.date),
   ("room_type", r.room_type),
   ("price", ratCell r.price),
   ("currency", r.currency),
   ("amenities", if r.amenities.isEmpty then ""
                 else String.intercalate ";" r.amenities),
   ("availability", if r.is_available then "Available" else "Not Available"),
   ("cancellation_policy", r.cancellation_policy.getD ""),
   ("meal_plan", r.meal_plan.getD "")]

/-- Models `csv.DictWriter.writerow` with the sink's `fieldnames`: a key
outside `fieldnames` raises `ValueError`; a missing key yields the default
`restval`, the empty string. -/
def dictWriterRow (fieldnames : List String) (row : List (String × String)) :
    Except String (List String) :=
  if row.all (fun kv => fieldnames.contains kv.1) then
    .ok (fieldnames.map (fun f =>
      ((row.find? (fun kv => kv.1 == f)).map Prod.snd).getD ""))
  else .error "ValueError: dict contains fields not in fieldnames"

/-! ### Lemmas about the retry wrapper -/

lemma roomDataCall_retryPlaceholder_eq (r : RoomData) :
    roomDataCall retryPlaceholderKwargs r = .error unexpectedKwargMsg := by
  have h : ¬ (retryPlaceholderKwargs.all
      (fun k => roomDataFields.contains k) = true) := by decide
  unfold roomDataCall
  rw [if_neg h]

lemma scrapeWithRetryGo_nil
    (op : Nat → Except String (List RoomData)) (hotel : HotelInfo)
    (date : String) (mr : Nat) (d : Rat) :
    scrapeWithRetryGo op hotel date mr d [] = retryFallThrough hotel date := rfl

lemma scrapeWithRetryGo_cons
    (op : Nat → Except String (List RoomData)) (hotel : HotelInfo)
    (date : String) (mr : Nat) (d : Rat) (a : Nat) (rest : List Nat) :
    scrapeWithRetryGo op hotel date mr d (a :: rest) =
      retryStep op hotel date mr d a
        (scrapeWithRetryGo op hotel date mr d rest) := rfl

lemma retryStep_ok
    (op : Nat → Except String (List RoomData)) (hotel : HotelInfo)
    (date : String) (mr : Nat) (d : Rat) (a : Nat) (next : RetryRun)
    (rooms : List RoomData) (hop : op a = .ok rooms) :
    retryStep op hotel date mr d a next =
      { result := .ok rooms, calls := 1, waits := [] } := by
  unfold retryStep
  rw [hop]

lemma retryStep_retry
    (op : Nat → Except String (List RoomData)) (hotel : HotelInfo)
    (date : String) (mr : Nat) (d : Rat) (a : Nat) (next : RetryRun)
    (e : String) (hop : op a = .error e)
    (hc : (isRetryable e && decide (a < mr - 1)) = true) :
    retryStep op hotel date mr d a next =
      { result := next.result
        calls := next.calls + 1
        waits := d * ((a : Rat) + 1) :: next.waits } := by
  unfold retryStep
  rw [hop]
  simp only [hc, if_true]

lemma retryStep_break
    (op : Nat → Except String (List RoomData)) (hotel : HotelInfo)
    (date : String) (mr : Nat) (d : Rat) (a : Nat) (next : RetryRun)
    (e : String) (hop : op a = .error e)
    (hc : ¬ ((isRetryable e && decide (a < mr - 1)) = true)) :
    retryStep op hotel date mr d a next =
      { result := (roomDataCall retryPlaceholderKwargs
          (retryErrorRoom hotel date)).map (fun r => [r])
        calls := 1
        waits := [] } := by
  unfold retryStep
  rw [hop]
  simp only [hc]
  rfl

lemma scrapeWithRetryGo_allFail_result
    (op : Nat → Except String (List RoomData)) (hotel : HotelInfo)
    (date : String) (mr : Nat) (d : Rat) :
    ∀ l : List Nat, (∀ a ∈ l, ∃ e, op a = .error e) →
      (scrapeWithRetryGo op hotel date mr d l).result
        = .error unexpectedKwargMsg := by
  intro l
  induction l with
  | nil =>
      intro _
      rw [scrapeWithRetryGo_nil]
      unfold retryFallThrough
      rw [roomDataCall_retryPlaceholder_eq]
      rfl
  | cons a rest ih =>
      intro h
      obtain ⟨e, he⟩ := h a (by simp)
      have hrest := ih (fun x hx => h x (by simp [hx]))
      rw [scrapeWithRetryGo_cons]
      by_cases hc : (isRetryable e && decide (a < mr - 1)) = true
      · rw [retryStep_retry op hotel date mr d a _ e he hc]
        exact hrest
      · rw [retryStep_break op hotel date mr d a _ e he hc,
          roomDataCall_retryPlaceholder_eq]
        rfl

lemma scrapeWithRetryGo_range'_retryable
    (op : Nat → Except String (List RoomData)) (msg : Nat → String)
    (hotel : HotelInfo) (date : String) (mr : Nat) (d : Rat)
    (hop : ∀ n, op n = .error (msg n))
    (hret : ∀ n, isRetryable (msg n) = true) :
    ∀ (k s : Nat), s + k = mr →
      (scrapeWithRetryGo op hotel date mr d (List.range' s k)).calls = k ∧
      (scrapeWithRetryGo op hotel date mr d (List.range' s k)).waits
        = (List.range' s (k - 1)).map (fun a : Nat => d * ((a : Rat) + 1)) := by
  intro k
  induction k with
  | zero => intro s _; simp [scrapeWithRetryGo_nil, retryFallThrough]
  | succ k ih =>
      intro s hs
      rw [List.range'_succ, scrapeWithRetryGo_cons]
      cases k with
      | zero =>
          have hc : ¬ ((isRetryable (msg s) && decide (s < mr - 1)) = true) := by
            simp [hret s]; omega
          rw [retryStep_break op hotel date mr d s _ _ (hop s) hc]
          simp
      | succ m =>
          have hc : (isRetryable (msg s) && decide (s < mr - 1)) = true := by
            simp [hret s]; omega
          rw [retryStep_retry op hotel date mr d s _ _ (hop s) hc]
          have hrec := ih (s + 1) (by omega)
          refine ⟨by simp [hrec.1], ?_⟩
          simp only [hrec.2, Nat.succ_sub_one]
          rw [List.range'_succ]
          simp

/-- C1. The claim: with an extraction that raises on every attempt,
`scrape_with_retry` exhausts `max_retries` attempts and RETURNS a one-element
"error" record list, letting no exception escape. The code instead raises:
the placeholder construction at src/scraper/multi_browser_scraper.py lines
482-495 passes the keyword `availability_count`, which the `RoomData`
dataclass (src/scraper/models.py lines 35-53) does not declare, so the
fall-through path raises `TypeError` past the retry boundary instead of
returning the record. This theorem evaluates the embedded code on that
failing scenario: the outcome is the escaping `TypeError`, not a list. -/
theorem retry_exhaustion_raises_type_error
    (hotel : HotelInfo) (date : String) (mr : Nat) (d : Rat)
    (op : Nat → Except String (List RoomData))
    (hfail : ∀ n, ∃ e, op n = .error e) :
    (scrapeWithRetry op hotel date mr d).result
      = .error unexpectedKwargMsg := by
  exact scrapeWithRetryGo_allFail_result op hotel date mr d
    (List.range mr) (fun a _ => hfail a)

/-- Witness for C1's theorem at a concrete failing input: a hotel scraped for
one date with every attempt raising a timeout, `max_retries = 3`. -/
theorem retry_exhaustion_raises_type_error_witness :
    (scrapeWithRetry (fun _ => .error "timeout")
        { name := "Hotel A", url := "https://example.org/a",
          location := some "Jaipur", rating := some 4,
          star_rating := some 5, review_count := some 120 }
        "2026-10-13" 3 5).result = .error unexpectedKwargMsg :=
  retry_exhaustion_raises_type_error _ "2026-10-13" 3 5 _
    (fun _ => ⟨"timeout", rfl⟩)

/-- C6. Retry ceiling and backoff of `scrape_with_retry`
(src/scraper/multi_browser_scraper.py, lines 453-478): an operation raising a
transient-network error on every attempt is invoked exactly `max_retries`
times, with the wait after (1-indexed) attempt `k` equal to
`retry_delay * k`; an operation whose first error matches none of the
transient patterns is never retried — it is invoked exactly once. -/
theorem retry_attempt_counts
    (hotel : HotelInfo) (date : String) (mr : Nat) (d : Rat)
    (opR : Nat → Except String (List RoomData)) (msgR : Nat → String)
    (hR : ∀ n, opR n = .error (msgR n))
    (hRr : ∀ n, isRetryable (msgR n) = true)
    (opT : Nat → Except String (List RoomData)) (e : String)
    (hT : opT 0 = .error e) (hTt : isRetryable e = false) (hmr : 1 ≤ mr) :
    (scrapeWithRetry opR hotel date mr d).calls = mr ∧
    (scrapeWithRetry opR hotel date mr d).waits
      = (List.range (mr - 1)).map (fun k : Nat => d * ((k : Rat) + 1)) ∧
    (scrapeWithRetry opT hotel date mr d).calls = 1 := by
  have hmain := scrapeWithRetryGo_range'_retryable opR msgR hotel date mr d
    hR hRr mr 0 (by omega)
  refine ⟨?_, ?_, ?_⟩
  · simpa [scrapeWithRetry, List.range_eq_range'] using hmain.1
  · simpa [scrapeWithRetry, List.range_eq_range'] using hmain.2
  · obtain ⟨m, rfl⟩ : ∃ m, mr = m + 1 := ⟨mr - 1, by omega⟩
    have hr : List.range (m + 1) = 0 :: List.range' 1 m := by
      rw [List.range_eq_range', List.range'_succ]
    have hc : ¬ ((isRetryable e && decide ((0 : Nat) < m + 1 - 1)) = true) := by
      simp [hTt]
    rw [scrapeWithRetry, hr, scrapeWithRetryGo_cons,
      retryStep_break opT hotel date (m + 1) d 0 _ e hT hc]

/-- Witness for C6's theorem: `max_retries = 3`, an always-timeout operation
and an always-structural-failure operation. -/
theorem retry_attempt_counts_witness :
    (scrapeWithRetry (fun _ => .error "timeout")
        { name := "H", url := "u" } "2026-10-13" 3 5).calls = 3 ∧
    (scrapeWithRetry (fun _ => .error "timeout")
        { name := "H", url := "u" } "2026-10-13" 3 5).waits = [5, 10] ∧
    (scrapeWithRetry (fun _ => .error "no usable data")
        { name := "H", url := "u" } "2026-10-13" 3 5).calls = 1 := by
  have hTim : isRetryable "timeout" = true := by decide
  have hStruct : isRetryable "no usable data" = false := by decide
  have h := retry_attempt_counts { name := "H", url := "u" } "2026-10-13" 3 5
    (fun _ => .error "timeout") (fun _ => "timeout") (fun _ => rfl)
    (fun _ => hTim)
    (fun _ => .error "no usable data") "no usable data" rfl hStruct
    (by omega)
  refine ⟨h.1, ?_, h.2.2⟩
  rw [h.2.1]
  norm_num [List.range_succ]

/-! ### Lemmas about the per-date loop and the circuit breaker -/

/-- A returned extraction outcome the circuit breaker counts as a failure:
an empty list or a leading "Error" placeholder
(src/scraper/multi_browser_scraper.py, lines 563-567). -/
def okFailure (o : Except String (List RoomData)) : Bool :=
  match o with
  | .ok rooms => !(roomsSuccessful rooms)
  | .error _ => false

lemma okFailure_elim (o : Except String (List RoomData))
    (h : okFailure o = true) :
    ∃ rooms, o = .ok rooms ∧ roomsSuccessful rooms = false := by
  cases o with
  | ok rooms =>
      refine ⟨rooms, rfl, ?_⟩
      simpa [okFailure] using h
  | error e => simp [okFailure] at h

lemma processDates_cons (st : DateLoopState)
    (o : Except String (List RoomData))
    (os : List (Except String (List RoomData))) :
    processDates st (o :: os) = processDates (processDate st o) os := rfl

lemma processDates_nil (st : DateLoopState) : processDates st [] = st := rfl

lemma processDate_success_stats (st : DateLoopState) (rooms : List RoomData)
    (h : roomsSuccessful rooms = true) :
    (processDate st (.ok rooms)).consecutiveErrors = 0 ∧
    (processDate st (.ok rooms)).restarts = st.restarts := by
  simp [processDate, h]

lemma processDate_failure_stats (st : DateLoopState) (rooms : List RoomData)
    (h : roomsSuccessful rooms = false) :
    (processDate st (.ok rooms)).consecutiveErrors
      = (if st.consecutiveErrors + 1 < 5 then st.consecutiveErrors + 1 else 0) ∧
    (processDate st (.ok rooms)).restarts
      = (if st.consecutiveErrors + 1 < 5 then st.restarts else st.restarts + 1) := by
  simp only [processDate, h]
  split_ifs <;> simp_all <;> omega

lemma processDates_failures_le4
    (os : List (Except String (List RoomData))) :
    ∀ st : DateLoopState, (∀ o ∈ os, okFailure o = true) →
      st.consecutiveErrors + os.length ≤ 4 →
      (processDates st os).consecutiveErrors
          = st.consecutiveErrors + os.length ∧
      (processDates st os).restarts = st.restarts := by
  induction os with
  | nil => intro st _ _; simp [processDates_nil]
  | cons o rest ih =>
      intro st hos hle
      obtain ⟨rooms, rfl, hfail⟩ := okFailure_elim o (hos o (by simp))
      have hstats := processDate_failure_stats st rooms hfail
      have h5 : st.consecutiveErrors + 1 < 5 := by
        simp at hle; omega
      rw [processDates_cons]
      have hrec := ih (processDate st (.ok rooms))
        (fun x hx => hos x (by simp [hx]))
        (by rw [hstats.1, if_pos h5]; simp at hle ⊢; omega)
      rw [hrec.1, hrec.2, hstats.1, hstats.2, if_pos h5, if_pos h5]
      simp
      omega

lemma processDates_failures_hit5
    (os : List (Except String (List RoomData))) :
    ∀ st : DateLoopState, (∀ o ∈ os, okFailure o = true) →
      st.consecutiveErrors + os.length = 5 → st.consecutiveErrors ≤ 4 →
      (processDates st os).consecutiveErrors = 0 ∧
      (processDates st os).restarts = st.restarts + 1 := by
  induction os with
  | nil =>
      intro st _ h5 h4
      simp at h5
      omega
  | cons o rest ih =>
      intro st hos h5 h4
      obtain ⟨rooms, rfl, hfail⟩ := okFailure_elim o (hos o (by simp))
      have hstats := processDate_failure_stats st rooms hfail
      rw [processDates_cons]
      simp only [List.length_cons] at h5
      by_cases hlast : st.consecutiveErrors = 4
      · have hrest : rest = [] := by
          have : rest.length = 0 := by omega
          exact List.length_eq_zero.mp this
        subst hrest
        rw [processDates_nil]
        have h5' : ¬ (st.consecutiveErrors + 1 < 5) := by omega
        rw [hstats.1, hstats.2, if_neg h5', if_neg h5']
        exact ⟨rfl, rfl⟩
      · have h5' : st.consecutiveErrors + 1 < 5 := by omega
        have hrec := ih (processDate st (.ok rooms))
          (fun x hx => hos x (by simp [hx]))
          (by rw [hstats.1, if_pos h5']; omega)
          (by rw [hstats.1, if_pos h5']; omega)
        refine ⟨hrec.1, ?_⟩
        rw [hrec.2, hstats.2, if_pos h5']

/-- The per-hotel structure of the worker loop
(src/scraper/multi_browser_scraper.py, lines 546-592): for every dequeued
hotel, fresh `hotel_rooms = []` and `consecutive_errors = 0` are initialized
(lines 549-550) before that hotel's date loop runs — the counter is NOT
carried from one hotel to the next. -/
def processHotels (st : DateLoopState)
    (hotels : List (List (Except String (List RoomData)))) : DateLoopState :=
  hotels.foldl
    (fun s outcomes =>
      processDates { s with hotelRooms := [], consecutiveErrors := 0 } outcomes)
    st

lemma processHotels_nil (st : DateLoopState) : processHotels st [] = st := rfl

lemma processHotels_cons (st : DateLoopState)
    (os : List (Except String (List RoomData)))
    (rest : List (List (Except String (List RoomData)))) :
    processHotels st (os :: rest)
      = processHotels
          (processDates { st with hotelRooms := [], consecutiveErrors := 0 } os)
          rest := rfl

/-- C5 counterexample. The claim as stated is false on the code. First, an
empty-result extraction outcome does not increment the counter: the success
test at src/scraper/multi_browser_scraper.py line 564 treats any non-empty
list whose first row is not the "Error" placeholder as success, so the
"No Rooms Found" placeholder (room_details.py lines 657-671) RESETS a counter
of 3 to 0, and five consecutive such empty-result outcomes trigger zero
restarts, not one. Second, the counter is not per-worker but re-initialized
to zero for every dequeued hotel (line 550), so five consecutive terminal
"Error" outcomes split 3 + 2 across a hotel boundary also trigger zero
restarts. -/
theorem circuit_breaker_claim_counterexample :
    (processDate
        { written := [], hotelRooms := [], consecutiveErrors := 3,
          restarts := 0, workerErrors := 0 }
        (.ok [noRoomsFoundRoom { name := "H", url := "u" } "d"])).consecutiveErrors
      = 0 ∧
    (processDates initDateLoop (List.replicate 5
        (.ok [noRoomsFoundRoom { name := "H", url := "u" } "d"]))).restarts
      = 0 ∧
    (processHotels initDateLoop
        [List.replicate 3 (.ok [detailsErrorRoom { name := "H", url := "u" } "d"]),
         List.replicate 2 (.ok [detailsErrorRoom { name := "H", url := "u" } "d"])]).restarts
      = 0 := by
  refine ⟨by decide, by decide, by decide⟩

/-- C5, amended to what the code does. Within one hotel's date loop
(src/scraper/multi_browser_scraper.py, lines 549-584) the
`consecutive_errors` counter resets to zero on any returned non-empty outcome
whose first row is not the "Error" placeholder — the "No Rooms Found"
empty-result placeholder therefore resets it — and increments on an empty
list or an "Error"-leading outcome; exactly 5 consecutive counted failures
within one hotel trigger exactly one browser restart leaving the counter at
zero; 4 counted failures followed by a resetting outcome trigger none; and
because the counter is re-initialized per dequeued hotel (line 550), counted
failures split across two hotels with at most 4 in each trigger none. -/
theorem circuit_breaker_contract :
    (∀ (st : DateLoopState) (rooms : List RoomData),
        roomsSuccessful rooms = true →
        (processDate st (.ok rooms)).consecutiveErrors = 0) ∧
    (∀ (st : DateLoopState) (rooms : List RoomData),
        roomsSuccessful rooms = false → st.consecutiveErrors + 1 < 5 →
        (processDate st (.ok rooms)).consecutiveErrors
          = st.consecutiveErrors + 1) ∧
    (∀ os : List (Except String (List RoomData)),
        (∀ o ∈ os, okFailure o = true) → os.length = 5 →
        (processDates initDateLoop os).restarts = 1 ∧
        (processDates initDateLoop os).consecutiveErrors = 0) ∧
    (∀ (os : List (Except String (List RoomData))) (rooms : List RoomData),
        (∀ o ∈ os, okFailure o = true) → os.length = 4 →
        roomsSuccessful rooms = true →
        (processDates initDateLoop (os ++ [.ok rooms])).restarts = 0) ∧
    (∀ (os1 os2 : List (Except String (List RoomData))),
        (∀ o ∈ os1, okFailure o = true) → (∀ o ∈ os2, okFailure o = true) →
        os1.length ≤ 4 → os2.length ≤ 4 →
        (processHotels initDateLoop [os1, os2]).restarts = 0) := by
  refine ⟨?_, ?_, ?_, ?_, ?_⟩
  · intro st rooms h
    exact (processDate_success_stats st rooms h).1
  · intro st rooms h h5
    rw [(processDate_failure_stats st rooms h).1, if_pos h5]
  · intro os hos hlen
    have h := processDates_failures_hit5 os initDateLoop hos
      (by simp [initDateLoop, hlen]) (by simp [initDateLoop])
    exact ⟨h.2, h.1⟩
  · intro os rooms hos hlen hsucc
    have hstep := processDates_failures_le4 os initDateLoop hos
      (by simp [initDateLoop, hlen])
    have happ : processDates initDateLoop (os ++ [.ok rooms])
        = processDate (processDates initDateLoop os) (.ok rooms) := by
      simp [processDates, List.foldl_append]
    rw [happ, (processDate_success_stats _ rooms hsucc).2, hstep.2]
    rfl
  · intro os1 os2 h1 h2 hl1 hl2
    have e1 := processDates_failures_le4 os1
      { initDateLoop with hotelRooms := [], consecutiveErrors := 0 } h1
      (by simpa using hl1)
    rw [processHotels_cons, processHotels_cons, processHotels_nil]
    generalize hs1 : processDates
      { initDateLoop with hotelRooms := [], consecutiveErrors := 0 } os1 = s1
      at e1 ⊢
    have e2 := processDates_failures_le4 os2
      { s1 with hotelRooms := [], consecutiveErrors := 0 } h2
      (by simpa using hl2)
    rw [e2.2]
    simpa [initDateLoop] using e1.2

/-- Witness for C5's amended theorem: 5 consecutive "Error" outcomes in one
hotel restart once; 4 "Error" outcomes then a "No Rooms Found" reset restart
never; and 2 + 3 "Error" outcomes split across two hotels restart never. -/
theorem circuit_breaker_contract_witness :
    ((processDates initDateLoop (List.replicate 5
        (Except.ok [detailsErrorRoom { name := "H", url := "u" } "d"]))).restarts = 1 ∧
      (processDates initDateLoop (List.replicate 5
        (Except.ok [detailsErrorRoom { name := "H", url := "u" } "d"]))).consecutiveErrors = 0) ∧
    (processDates initDateLoop (List.replicate 4
        (Except.ok [detailsErrorRoom { name := "H", url := "u" } "d"])
      ++ [Except.ok [noRoomsFoundRoom { name := "H", url := "u" } "d"]])).restarts = 0 ∧
    (processHotels initDateLoop
        [List.replicate 2 (Except.ok [detailsErrorRoom { name := "H", url := "u" } "d"]),
         List.replicate 3 (Except.ok [detailsErrorRoom { name := "H", url := "u" } "d"])]).restarts = 0 := by
  refine ⟨circuit_breaker_contract.2.2.1 _ ?_ ?_,
          circuit_breaker_contract.2.2.2.1 _ _ ?_ ?_ ?_,
          circuit_breaker_contract.2.2.2.2 _ _ ?_ ?_ ?_ ?_⟩
  · decide
  · rfl
  · decide
  · rfl
  · decide
  · decide
  · decide
  · decide
  · decide

/-- C2. The claim: every (hotel, date) a worker attempts yields at least one
record in the output. The code violates this: when every attempt of the
wrapped extraction raises, `scrape_with_retry` itself raises a `TypeError`
(its placeholder passes the undeclared keyword `availability_count`,
src/scraper/multi_browser_scraper.py line 490), the per-date handler at lines
589-592 swallows it, and the date contributes nothing to `hotel_rooms` or the
CSV — a silent drop counted only in `worker.errors`. This theorem evaluates
the embedded worker iteration on that failing input. -/
theorem worker_date_silent_drop :
    processDate initDateLoop
        (scrapeWithRetry (fun _ => .error "timeout")
          { name := "Hotel B", url := "https://example.org/b",
            location := some "Jaipur", rating := some 4,
            star_rating := some 3, review_count := some 10 }
          "2026-10-14" 3 5).result
      = { written := [], hotelRooms := [], consecutiveErrors := 1,
          restarts := 0, workerErrors := 1 } := by
  rw [show (scrapeWithRetry (fun _ => .error "timeout")
        { name := "Hotel B", url := "https://example.org/b",
          location := some "Jaipur", rating := some 4,
          star_rating := some 3, review_count := some 10 }
        "2026-10-14" 3 5).result = .error unexpectedKwargMsg from
      scrapeWithRetryGo_allFail_result _ _ _ _ _ _
        (fun a _ => ⟨"timeout", rfl⟩)]
  rfl

/-- C9. `scrape_hotel_rooms` (src/scraper/room_details.py, lines 570-690)
never propagates an exception from its guarded body and always returns a
non-empty list: a body failure yields exactly the single "Error" placeholder,
and an extraction that finds no rooms (JSON branch not taken, HTML listings
missing or parsing empty) yields exactly the single "No Rooms Found"
placeholder. -/
theorem scrape_hotel_rooms_always_yields
    (hotel : HotelInfo) (date : String) (ext : PageExtraction) :
    scrapeHotelRooms hotel date ext ≠ [] ∧
    (∀ e, ext.bodyRaises = some e →
        scrapeHotelRooms hotel date ext = [detailsErrorRoom hotel date]) ∧
    (ext.bodyRaises = none →
      (ext.apiReceived && !ext.jsonRooms.isEmpty) = false →
      (ext.htmlLoaded = false ∨ ext.htmlRooms = []) →
      scrapeHotelRooms hotel date ext = [noRoomsFoundRoom hotel date]) := by
  obtain ⟨br, api, jr, hl, hrm⟩ := ext
  cases br with
  | some e =>
      refine ⟨by simp [scrapeHotelRooms], fun e' _ => by simp [scrapeHotelRooms],
        fun h => by simp at h⟩
  | none =>
      refine ⟨?_, fun e' he' => by simp at he', ?_⟩
      · by_cases h1 : (api && !jr.isEmpty) = true
        · obtain ⟨ha, hj⟩ : api = true ∧ jr.isEmpty = false := by
            simpa using h1
          have hne : jr ≠ [] := by simpa using hj
          simp [scrapeHotelRooms, h1, hne]
        · rw [Bool.not_eq_true] at h1
          by_cases h2 : hl = true
          · by_cases h3 : hrm.isEmpty = true
            · simp [scrapeHotelRooms, h1, h2, h3]
            · rw [Bool.not_eq_true] at h3
              have hne : hrm ≠ [] := by simpa using h3
              simp [scrapeHotelRooms, h1, h2, h3, hne]
          · rw [Bool.not_eq_true] at h2
            simp [scrapeHotelRooms, h1, h2]
      · intro _ h1 h3
        simp only [PageExtraction.apiReceived, PageExtraction.jsonRooms,
          PageExtraction.htmlLoaded, PageExtraction.htmlRooms] at h1 h3
        rcases h3 with h3 | h3
        · simp [scrapeHotelRooms, h1, h3]
        · by_cases h2 : hl = true
          · simp [scrapeHotelRooms, h1, h2, h3]
          · rw [Bool.not_eq_true] at h2
            simp [scrapeHotelRooms, h1, h2]

/-- Witness for C9's theorem: a raising body yields the "Error" placeholder;
a clean body with no captured API rooms and empty HTML parse yields the
"No Rooms Found" placeholder. -/
theorem scrape_hotel_rooms_always_yields_witness :
    scrapeHotelRooms { name := "H", url := "u" } "d"
        { bodyRaises := some "boom", apiReceived := false, jsonRooms := [],
          htmlLoaded := true, htmlRooms := [] }
      = [detailsErrorRoom { name := "H", url := "u" } "d"] ∧
    scrapeHotelRooms { name := "H", url := "u" } "d"
        { bodyRaises := none, apiReceived := false, jsonRooms := [],
          htmlLoaded := true, htmlRooms := [] }
      = [noRoomsFoundRoom { name := "H", url := "u" } "d"] := by
  constructor
  · exact (scrape_hotel_rooms_always_yields { name := "H", url := "u" } "d"
      _).2.1 "boom" rfl
  · exact (scrape_hotel_rooms_always_yields { name := "H", url := "u" } "d"
      _).2.2 rfl rfl (Or.inr rfl)

/-! ### Lemmas about queue completion accounting -/

lemma workerTrace_count_taskDone (fails : Nat → Bool) (i : Nat) :
    ∀ l : List Nat,
      (workerTrace fails l).count (WorkerEvent.taskDone i) = l.count i := by
  intro l
  induction l with
  | nil => rfl
  | cons a l ih =>
      by_cases hf : fails a = true <;>
        simp [workerTrace, List.count_append, List.count_cons, hf,
          List.count_nil] at ih ⊢ <;>
        rw [ih]

lemma workerTrace_count_dequeued (fails : Nat → Bool) (i : Nat) :
    ∀ l : List Nat,
      (workerTrace fails l).count (WorkerEvent.dequeued i) = l.count i := by
  intro l
  induction l with
  | nil => rfl
  | cons a l ih =>
      by_cases hf : fails a = true <;>
        simp [workerTrace, List.count_append, List.count_cons, hf,
          List.count_nil] at ih ⊢ <;>
        rw [ih]

lemma workerTrace_countP_taskDone (fails : Nat → Bool) :
    ∀ l : List Nat,
      (workerTrace fails l).countP isTaskDoneEvt = l.length := by
  intro l
  induction l with
  | nil => rfl
  | cons a l ih =>
      by_cases hf : fails a = true <;>
        simp [workerTrace, List.countP_append, List.countP_cons, hf,
          isTaskDoneEvt] at ih ⊢ <;> omega

lemma fleetTrace_count_taskDone (fails : Nat → Bool) (i : Nat) :
    ∀ asg : List (List Nat),
      (fleetTrace fails asg).count (WorkerEvent.taskDone i)
        = asg.flatten.count i := by
  intro asg
  induction asg with
  | nil => rfl
  | cons w ws ih =>
      simp [fleetTrace, List.count_append, workerTrace_count_taskDone] at ih ⊢
      rw [ih]

lemma fleetTrace_count_dequeued (fails : Nat → Bool) (i : Nat) :
    ∀ asg : List (List Nat),
      (fleetTrace fails asg).count (WorkerEvent.dequeued i)
        = asg.flatten.count i := by
  intro asg
  induction asg with
  | nil => rfl
  | cons w ws ih =>
      simp [fleetTrace, List.count_append, workerTrace_count_dequeued] at ih ⊢
      rw [ih]

lemma fleetTrace_countP_taskDone (fails : Nat → Bool) :
    ∀ asg : List (List Nat),
      (fleetTrace fails asg).countP isTaskDoneEvt = asg.flatten.length := by
  intro asg
  induction asg with
  | nil => rfl
  | cons w ws ih =>
      simp [fleetTrace, List.countP_append, workerTrace_countP_taskDone]
        at ih ⊢
      rw [ih]

/-- C3. Queue completion of `browser_worker_task`
(src/scraper/multi_browser_scraper.py, lines 530-621): per dequeued item,
`task_done` runs exactly once — the call sits in the `finally` of the
per-item `try`, so it runs whether or not processing raised — hence for `N`
enqueued items distributed over any fleet of `W ≥ 1` workers, the fleet
performs exactly one `task_done` per item and `N` in total, which is exactly
when `hotel_queue.join()` resolves. -/
theorem queue_task_done_exactly_once
    (N W : Nat) (fails : Nat → Bool) (assignment : List (List Nat))
    (hW : assignment.length = W) (hW1 : 1 ≤ W)
    (hperm : assignment.flatten.Perm (List.range N)) :
    (∀ i : Nat,
        (fleetTrace fails assignment).count (WorkerEvent.taskDone i)
          = (fleetTrace fails assignment).count (WorkerEvent.dequeued i)) ∧
    (∀ i : Nat, i < N →
        (fleetTrace fails assignment).count (WorkerEvent.taskDone i) = 1) ∧
    (fleetTrace fails assignment).countP isTaskDoneEvt = N := by
  refine ⟨fun i => ?_, fun i hi => ?_, ?_⟩
  · rw [fleetTrace_count_taskDone, fleetTrace_count_dequeued]
  · rw [fleetTrace_count_taskDone, hperm.count_eq]
    exact List.count_eq_one_of_mem (List.nodup_range N) (List.mem_range.mpr hi)
  · rw [fleetTrace_countP_taskDone, hperm.length_eq, List.length_range]

/-- Witness for C3's theorem: 3 items over 2 workers, the body failing on
item 0; still one `task_done` per item and 3 in total. -/
theorem queue_task_done_exactly_once_witness :
    (fleetTrace (fun i => decide (i = 0)) [[1, 0], [2]]).count
        (WorkerEvent.taskDone 0) = 1 ∧
    (fleetTrace (fun i => decide (i = 0)) [[1, 0], [2]]).countP
        isTaskDoneEvt = 3 := by
  have h := queue_task_done_exactly_once 3 2 (fun i => decide (i = 0))
    [[1, 0], [2]] rfl (by omega) (List.isPerm_iff.mp (by decide))
  exact ⟨h.2.1 0 (by omega), h.2.2⟩

/-! ### Lemmas about worker shutdown and cleanup -/

lemma releaseWorkerResources_closes (s : WorkerSt) :
    (∀ b, (releaseWorkerResources s).browserVar = some b →
        b ∉ (releaseWorkerResources s).openSessions) ∧
    (∀ p, (releaseWorkerResources s).pageVar = some p →
        p ∉ (releaseWorkerResources s).openSessions) := by
  unfold releaseWorkerResources
  cases hp : s.pageVar <;> cases hb : s.browserVar <;>
    simp [hp, hb, List.mem_filter]

lemma pyTryFinally_catchAll_spec (body : WorkerM Unit) (s0 : WorkerSt) :
    (pyTryFinally (pyCatchAll body) releaseWorkerResources s0).1 = .ok () ∧
    (pyTryFinally (pyCatchAll body) releaseWorkerResources s0).2
      = releaseWorkerResources (body s0).2 := by
  unfold pyTryFinally pyCatchAll
  rcases hb : body s0 with ⟨r, s1⟩
  cases r <;> simp

/-- C8. Shutdown safety of `browser_worker_task`
(src/scraper/multi_browser_scraper.py, lines 523-642): whatever the loop body
does — normal drain, an arbitrary raise anywhere, or session-acquisition
failure — the task never propagates an exception to the orchestrator, and at
exit the resources referenced by the worker's `browser` and `page` locals are
no longer open (the `finally` closes them, each close shielded by its own
`try/except`). -/
theorem worker_cleanup_on_all_paths
    (acquireOk : Bool) (loopBody : WorkerM Unit) (s0 : WorkerSt) :
    (browserWorkerTask acquireOk loopBody s0).1 = .ok () ∧
    (∀ b, (browserWorkerTask acquireOk loopBody s0).2.browserVar = some b →
        b ∉ (browserWorkerTask acquireOk loopBody s0).2.openSessions) ∧
    (∀ p, (browserWorkerTask acquireOk loopBody s0).2.pageVar = some p →
        p ∉ (browserWorkerTask acquireOk loopBody s0).2.openSessions) := by
  have hspec := pyTryFinally_catchAll_spec (workerBody acquireOk loopBody) s0
  have hclose := releaseWorkerResources_closes
    ((workerBody acquireOk loopBody) s0).2
  unfold browserWorkerTask
  rw [hspec.1, hspec.2]
  exact ⟨rfl, hclose.1, hclose.2⟩

/-- Witness for C8's theorem: a worker whose session acquisition succeeds and
whose loop crashes still exits cleanly with its session and page closed. -/
theorem worker_cleanup_on_all_paths_witness :
    (browserWorkerTask true (fun s => (.error "loop crashed", s))
        ⟨0, [], none, none⟩).1 = .ok () ∧
    0 ∉ (browserWorkerTask true (fun s => (.error "loop crashed", s))
        ⟨0, [], none, none⟩).2.openSessions ∧
    1 ∉ (browserWorkerTask true (fun s => (.error "loop crashed", s))
        ⟨0, [], none, none⟩).2.openSessions := by
  have h := worker_cleanup_on_all_paths true
    (fun s => (.error "loop crashed", s)) ⟨0, [], none, none⟩
  exact ⟨h.1, h.2.1 0 rfl, h.2.2 1 rfl⟩

/-! ### Lemmas about fingerprint assignment -/

lemma VIEWPORTS_nodup : VIEWPORTS.Nodup := by decide

lemma VIEWPORTS_getD_inj {i j : Nat} (hi : i < VIEWPORTS.length)
    (hj : j < VIEWPORTS.length)
    (h : VIEWPORTS.getD i (0, 0) = VIEWPORTS.getD j (0, 0)) : i = j := by
  rw [List.getD_eq_getElem?_getD, List.getD_eq_getElem?_getD,
    List.getElem?_eq_getElem hi, List.getElem?_eq_getElem hj] at h
  simp only [Option.getD_some] at h
  exact (VIEWPORTS_nodup.getElem_inj_iff).mp h

/-- C4. Fingerprint non-collision across deployments
(src/scraper/multi_browser_scraper.py, lines 721-747): two deployments with
worker counts `W1, W2` at offsets `O1, O2`, whose global-index ranges
`[O1, O1+W1)` and `[O2, O2+W2)` do not overlap, select disjoint fingerprint
sets whenever every pool is at least `max (O1+W1) (O2+W2)` long — each
deployment may even have shuffled its user-agent pool independently
(line 722), since the unshuffled viewport pool alone already separates the
assignments. -/
theorem fingerprint_sets_disjoint
    (ua1 ua2 : List String) (W1 O1 W2 O2 : Nat)
    (hdisj : O1 + W1 ≤ O2 ∨ O2 + W2 ≤ O1)
    (hua1 : max (O1 + W1) (O2 + W2) ≤ ua1.length)
    (hua2 : max (O1 + W1) (O2 + W2) ≤ ua2.length)
    (hvp : max (O1 + W1) (O2 + W2) ≤ VIEWPORTS.length)
    (hloc : max (O1 + W1) (O2 + W2) ≤ LOCALES.length) :
    ∀ f ∈ deploymentFingerprints ua1 O1 W1,
      f ∉ deploymentFingerprints ua2 O2 W2 := by
  intro f hf hg
  obtain ⟨i1, hi1, hf1⟩ := List.mem_map.mp hf
  obtain ⟨i2, hi2, hf2⟩ := List.mem_map.mp hg
  rw [List.mem_range] at hi1 hi2
  have hvpeq : VIEWPORTS.getD ((O1 + i1) % VIEWPORTS.length) (0, 0)
      = VIEWPORTS.getD ((O2 + i2) % VIEWPORTS.length) (0, 0) := by
    have h := congrArg Fingerprint.viewport (hf1.trans hf2.symm)
    simpa [mkFingerprint] using h
  have hg1 : O1 + i1 < VIEWPORTS.length := by omega
  have hg2 : O2 + i2 < VIEWPORTS.length := by omega
  rw [Nat.mod_eq_of_lt hg1, Nat.mod_eq_of_lt hg2] at hvpeq
  have := VIEWPORTS_getD_inj hg1 hg2 hvpeq
  omega

/-- Witness for C4's theorem: one worker at offset 0 against one worker at
offset 1 over the same two-element agent pool. -/
theorem fingerprint_sets_disjoint_witness :
    mkFingerprint (List.replicate 2 "ua") (0 + 0)
      ∉ deploymentFingerprints (List.replicate 2 "ua") 1 1 := by
  have h := fingerprint_sets_disjoint (List.replicate 2 "ua")
    (List.replicate 2 "ua") 1 0 1 1 (Or.inl (by omega))
    (by decide) (by decide) (by decide) (by decide)
  exact h (mkFingerprint (List.replicate 2 "ua") (0 + 0)) (by decide)

/-! ### Lemmas about proxy validation -/

lemma testProxy_eq (b : ProbeBehavior) (n : Nat) :
    testProxy b n
      = (.ok (proxyWorks b), n + (if b = .gotoFails then 1 else 0)) := by
  cases b <;> rfl

/-- C7 counterexample. The claim "every throwaway probe session is torn down
even when the probe fails" is false on the code: in `test_proxy`
(src/scraper/multi_browser_scraper.py, lines 390-417) the `browser.close()`
sits inside the `try` before the content check, so a raise from `page.goto`
jumps to the handler without closing — here the probe reports failure while
one session stays open. -/
theorem proxy_probe_leaks_session :
    (testProxy ProbeBehavior.gotoFails 0).1 = .ok false ∧
    ¬ (testProxy ProbeBehavior.gotoFails 0).2 = 0 := ⟨rfl, by decide⟩

/-- C7 amended. `validate_proxies`
(src/scraper/multi_browser_scraper.py, lines 420-436) returns exactly the
subset of candidates whose probe succeeded, in input order; the probe session
is torn down on every probe path EXCEPT a raise from navigation/content
fetch (where it leaks); the probe itself never raises; and zero working
proxies is not fatal — every worker is then assigned no proxy
(lines 731-735) and runs with a direct connection. -/
theorem validate_proxies_amended :
    (∀ (beh : String → ProbeBehavior) (l : List String) (n : Nat),
        (validateProxiesGo beh l n).1
          = .ok (l.filter (fun p => proxyWorks (beh p)))) ∧
    (∀ (b : ProbeBehavior) (n : Nat),
        testProxy b n = (.ok (proxyWorks b),
          n + (if b = .gotoFails then 1 else 0))) ∧
    (∀ g : Nat, assignProxy [] g = none) ∧
    (∀ (b : ProbeBehavior) (n : Nat), ∃ v, (testProxy b n).1 = .ok v) := by
  refine ⟨?_, testProxy_eq, fun g => rfl, fun b n => ?_⟩
  · intro beh l
    induction l with
    | nil => intro n; rfl
    | cons p l ih =>
        intro n
        rcases hv : validateProxiesGo beh l
            (n + (if beh p = .gotoFails then 1 else 0)) with ⟨rv, n2⟩
        have hih := ih (n + (if beh p = .gotoFails then 1 else 0))
        rw [hv] at hih
        simp only at hih
        subst hih
        simp only [validateProxiesGo, probeBind, testProxy_eq, hv,
          List.filter_cons]
  · rw [testProxy_eq]
    exact ⟨proxyWorks b, rfl⟩

/-- Witness for C7's amended theorem: of three candidates, only the one whose
probe content carries the origin marker is kept, in order; the empty working
list assigns no proxy. -/
theorem validate_proxies_amended_witness :
    (validateProxiesGo
        (fun p => if p = "socks5://b" then ProbeBehavior.contentOrigin
                  else ProbeBehavior.gotoFails)
        ["socks5://a", "socks5://b", "socks5://c"] 0).1
      = .ok ["socks5://b"] ∧
    assignProxy [] 7 = none := by
  constructor
  · rw [validate_proxies_amended.1]
    rfl
  · exact validate_proxies_amended.2.2.1 7

/-! ### The CSV sink schema -/

/-- C10. The multi-browser CSV sink declares an `availability_count` column
(src/scraper/multi_browser_scraper.py, lines 687-691) that
`RoomData.to_csv_row` (src/scraper/models.py, lines 75-91) never provides a
key for, so `csv.DictWriter` fills it with the empty `restval` on every data
row, for every `RoomData` value. -/
theorem availability_count_column_always_empty (r : RoomData) :
    csvHeaders.contains "availability_count" = true ∧
    ((toCsvRow r).map Prod.fst).contains "availability_count" = false ∧
    ∃ cells, dictWriterRow csvHeaders (toCsvRow r) = .ok cells ∧
      csvHeaders.getD 11 "" = "availability_count" ∧
      cells.getD 11 "MISSING" = "" := by
  exact ⟨by decide, rfl, ⟨_, rfl, by decide, rfl⟩⟩

end AgodaScraper
